import Mathlib

/-!
Shallow embedding of `fsm_admin/mixins.py` (django-fsm-admin):
the `FSMTransitionMixin` transition dispatcher.

Modelling choices, each tied to a line of the source:

* The mutable part of a Django model instance is its data attributes;
  we model them as an association list `ObjState := List (String × String)`
  (attribute name, string value), looked up first-match like an instance
  `__dict__`.  The FSM state field lives here.
* Class-level transition methods are a static map
  `methods : String → Option TransFn`; a transition callable mutates the
  instance data and may raise (`Except`), mirroring that the dispatcher
  catches nothing.
* `getattr(obj, name, None)` (line 73 of the source) is `pygetattr`:
  instance data shadows class methods, absent attributes give `none`.
  Python truthiness of the result (`if available and trans_func`, line 75)
  is `pytruthy`: a bound method is always truthy, a string is truthy iff
  nonempty.
* `request.POST.keys()` is a `List String` in submission order;
  `k.startswith("_fsmtransition")` (line 58) is `pyStartsWith`
  (note: the source tests the prefix WITHOUT a trailing dash);
  `s.split('-')` (line 63) is `pySplit '-'`, which has exactly Python's
  `str.split(sep)` semantics (keeps empty groups, never returns `[]`);
  the index access `[1]` is `List.get? 1`, `none` standing for the
  `IndexError` Python raises on a one-element split result.
* `get_available_FIELD_transitions()` (django-fsm, external) returns pairs
  `(target_state, func)` of which the source only reads `func.func_name`;
  we model the returned list as `available : List (String × String)`
  (target, func_name), an opaque input of the object model.
* `add_preserved_filters` and `self.get_preserved_filters` are Django
  admin code, external to this repository; they are modelled by an opaque
  merge function `apf : String → String → String` applied to the
  preserved-filters value carried by the request.
* `force_text(obj)` / `force_unicode(obj)` is the static `objRepr`;
  `ContentType.objects.get_for_model(...)` is the static `ctypeId`;
  `ugettext` is the identity.
* Observable effects are collected in `DispatchResult`: the returned
  response (`Outcome`, with `crash` for an uncaught Python exception),
  the instance data afterwards, the number of `obj.save()` calls, the
  appended `LogEntry` rows, the flashed messages with their level, and
  the names of the attributes that were invoked as transition callables.
  A callable that raises is modelled atomically (partial mutation by the
  raising method itself is outside the model); no claim below reads the
  instance data on that path.
-/

namespace FSMAdmin

/-- Instance data attributes of the business object: (name, value) pairs. -/
abbrev ObjState := List (String × String)

/-- First-match lookup of a data attribute, like reading an instance dict. -/
def lookupData (st : ObjState) (name : String) : Option String :=
  (st.find? (fun kv => kv.1 == name)).map (fun kv => kv.2)

/-- A transition callable: invoked with no arguments, it rewrites the
instance data or raises an exception (carried as `Except.error`). -/
abbrev TransFn := ObjState → Except String ObjState

/-- A Python attribute value as far as the dispatcher can observe it:
a plain (non-callable) string value, or a callable transition method. -/
inductive PyVal where
  | str (v : String)
  | func (f : TransFn)

/-- Static description of the business object: its class-level transition
methods, the list returned by `get_available_FIELD_transitions()` as pairs
(target_state, func_name), its rendering `force_text(obj)`, its primary key
and content-type id (the latter two only feed the log entry). -/
structure ObjSpec where
  methods : String → Option TransFn
  available : List (String × String)
  objRepr : String
  objId : Nat
  ctypeId : Nat

/-- `getattr(obj, name, None)`: instance data shadows class methods. -/
def pygetattr (spec : ObjSpec) (st : ObjState) (name : String) : Option PyVal :=
  match lookupData st name with
  | some v => some (PyVal.str v)
  | none => (spec.methods name).map PyVal.func

/-- Python truthiness of `trans_func` as used in `if available and trans_func`:
`None` is falsy, a string is truthy iff nonempty, a method is truthy. -/
def pytruthy : Option PyVal → Bool
  | none => false
  | some (PyVal.str v) => !(v == "")
  | some (PyVal.func _) => true

/-- The parts of the HTTP request the dispatcher reads: the submitted POST
field names in order, the request path, the authenticated user id, and the
preserved-filters value produced by `self.get_preserved_filters(request)`
(external admin code, carried opaquely). -/
structure Request where
  postKeys : List String
  path : String
  userId : Nat
  preservedFilters : String

/-- Source `get_redirect_url`: the hook's default body, `return request.path`. -/
def get_redirect_url (request : Request) : String :=
  request.path

/-- The mixin's configurable surface: the `fsm_field` class attribute
(default `'state'`) and the overridable `get_redirect_url` hook. -/
structure Mixin where
  fsm_field : String := "state"
  getRedirectUrl : Request → String := get_redirect_url

/-- Python `str.split(sep)` on an exploded string: keeps empty groups and
always returns at least one group (`''.split('-') == ['']`). -/
def splitList (sep : Char) : List Char → List (List Char)
  | [] => [[]]
  | c :: cs =>
    if c = sep then
      [] :: splitList sep cs
    else
      match splitList sep cs with
      | [] => [[c]]
      | g :: gs => (c :: g) :: gs

/-- Python `s.split(sep)` for a one-character separator. -/
def pySplit (sep : Char) (s : String) : List String :=
  (splitList sep s.data).map (fun cs => String.mk cs)

/-- Python `s.startswith(pre)`. -/
def pyStartsWith (pre s : String) : Bool :=
  pre.data.isPrefixOf s.data

/-- Line 58 of the source: the submitted field names that start with
`_fsmtransition` (no trailing dash in the tested literal). -/
def transitionKeys (keys : List String) : List String :=
  keys.filter (fun k => pyStartsWith "_fsmtransition" k)

/-- `_fsm_get_transitions`: delegates to django-fsm's
`get_available_<fsm_field>_transitions()` (the `perms` parameter of the
source is unused, and `obj` is always present on this code path, so the
`if obj else []` guard does not fire). -/
def _fsm_get_transitions (spec : ObjSpec) : List (String × String) :=
  spec.available

/-- `django.contrib.admin.models.CHANGE`. -/
def CHANGE : Nat := 2

/-- `django.contrib.messages.SUCCESS`. -/
def SUCCESS : Nat := 25

/-- `django.contrib.messages.ERROR`. -/
def ERROR : Nat := 40

/-- One row appended by `LogEntry.objects.log_action` (external store;
we record exactly the arguments the source passes). -/
structure LogEntryRec where
  user_id : Nat
  content_type_id : Nat
  object_id : Nat
  object_repr : String
  action_flag : Nat
  change_message : String
deriving DecidableEq, Repr

/-- Source `log_state_change`: the single audit row it appends. -/
def log_state_change (spec : ObjSpec) (userId : Nat)
    (original_state new_state : String) : LogEntryRec :=
  { user_id := userId
    content_type_id := spec.ctypeId
    object_id := spec.objId
    object_repr := spec.objRepr
    action_flag := CHANGE
    change_message := "Changed state from " ++ original_state ++ " to " ++ new_state }

/-- What `response_change` returns: delegation to
`super().response_change`, an `HttpResponseRedirect(url)`, or an uncaught
Python exception. -/
inductive Outcome where
  | delegated
  | redirected (url : String)
  | crash (err : String)
deriving DecidableEq, Repr

/-- All effects of one `response_change` call. -/
structure DispatchResult where
  outcome : Outcome
  finalData : ObjState
  saves : Nat
  logEntries : List LogEntryRec
  flashes : List (String × Nat)
  invoked : List String
deriving DecidableEq, Repr

/-- Source `response_change`, line by line.  `apf` stands for Django admin's
`add_preserved_filters`, applied to `self.get_preserved_filters(request)`
and the redirect url. -/
def response_change (m : Mixin) (apf : String → String → String)
    (req : Request) (spec : ObjSpec) (st : ObjState) : DispatchResult :=
  match transitionKeys req.postKeys with
  | [] =>
    -- `if not transition_key: return super().response_change(request, obj)`
    { outcome := Outcome.delegated, finalData := st, saves := 0,
      logEntries := [], flashes := [], invoked := [] }
  | k0 :: _ =>
    -- `transition = transition_key[0].split('-')[1]`
    match (pySplit '-' k0).get? 1 with
    | none =>
      -- Python: IndexError on a split with no second element
      { outcome := Outcome.crash "IndexError: list index out of range",
        finalData := st, saves := 0, logEntries := [], flashes := [], invoked := [] }
    | some transition =>
      -- `original_state = getattr(obj, self.fsm_field)` (no default:
      -- AttributeError if the configured field is absent)
      match lookupData st m.fsm_field with
      | none =>
        { outcome := Outcome.crash "AttributeError", finalData := st, saves := 0,
          logEntries := [], flashes := [], invoked := [] }
      | some original_state =>
        let transitions := _fsm_get_transitions spec
        -- `any([func.func_name == transition for target, func in transitions])`
        let available := transitions.any (fun tf => tf.2 == transition)
        -- `trans_func = getattr(obj, transition, None)`
        let trans_func := pygetattr spec st transition
        if available && pytruthy trans_func then
          match trans_func with
          | some (PyVal.func f) =>
            -- `trans_func()`
            match f st with
            | Except.error e =>
              -- the exception propagates: nothing below runs
              { outcome := Outcome.crash e, finalData := st, saves := 0,
                logEntries := [], flashes := [], invoked := [transition] }
            | Except.ok st1 =>
              -- `obj.save()`, then `new_state = obj.state` — the literal
              -- attribute `state`, NOT `getattr(obj, self.fsm_field)`
              match lookupData st1 "state" with
              | none =>
                { outcome := Outcome.crash "AttributeError: state",
                  finalData := st1, saves := 1, logEntries := [], flashes := [],
                  invoked := [transition] }
              | some new_state =>
                { outcome := Outcome.redirected
                    (apf req.preservedFilters (m.getRedirectUrl req)),
                  finalData := st1, saves := 1,
                  logEntries := [log_state_change spec req.userId original_state new_state],
                  flashes := [(spec.objRepr ++ " successfully set to " ++ new_state, SUCCESS)],
                  invoked := [transition] }
          | _ =>
            -- truthy but not callable: `trans_func()` raises TypeError
            { outcome := Outcome.crash "TypeError: not callable", finalData := st,
              saves := 0, logEntries := [], flashes := [], invoked := [] }
        else
          { outcome := Outcome.redirected
              (apf req.preservedFilters (m.getRedirectUrl req)),
            finalData := st, saves := 0, logEntries := [],
            flashes := [("Error! " ++ spec.objRepr ++ " failed to " ++ transition, ERROR)],
            invoked := [] }

/-! ### Concrete instances (used by witnesses and counterexamples) -/

/-- A concrete stand-in for Django's `add_preserved_filters` merge. -/
def apf0 : String → String → String := fun filters url => url ++ "?" ++ filters

/-- Transition callable setting the `state` attribute to `published`. -/
def pubFn : TransFn := fun _ => Except.ok [("state", "published")]

/-- Transition callable that raises. -/
def failFn : TransFn := fun _ => Except.error "ValueError: boom"

/-- Transition callable of an object configured with `fsm_field = status`:
it moves `status` to `published`; the unrelated attribute `state` keeps
holding `zzz`. -/
def pubStatusFn : TransFn := fun _ => Except.ok [("status", "published"), ("state", "zzz")]

def mixin0 : Mixin := {}

def mixinStatus : Mixin := { fsm_field := "status" }

def req0 (ks : List String) : Request :=
  { postKeys := ks, path := "/admin/app/model/1/", userId := 7, preservedFilters := "q=a" }

def spec0 : ObjSpec :=
  { methods := fun n => if n == "publish" then some pubFn else none
    available := [("published", "publish")]
    objRepr := "obj1", objId := 1, ctypeId := 9 }

def specEmpty : ObjSpec :=
  { methods := fun _ => none, available := [], objRepr := "obj2", objId := 2, ctypeId := 9 }

def specNow : ObjSpec :=
  { methods := fun n => if n == "publish-now" then some pubFn else none
    available := [("published", "publish-now")]
    objRepr := "obj3", objId := 3, ctypeId := 9 }

def specAvailOnly : ObjSpec :=
  { methods := fun _ => none, available := [("published", "publish")]
    objRepr := "obj4", objId := 4, ctypeId := 9 }

def specFail : ObjSpec :=
  { methods := fun n => if n == "publish" then some failFn else none
    available := [("published", "publish")]
    objRepr := "obj5", objId := 5, ctypeId := 9 }

def specStatus : ObjSpec :=
  { methods := fun n => if n == "publish" then some pubStatusFn else none
    available := [("published", "publish")]
    objRepr := "obj6", objId := 6, ctypeId := 9 }

def stDraft : ObjState := [("state", "draft")]

def stShadow : ObjState := [("state", "draft"), ("publish", "yes")]

def stStatusDraft : ObjState := [("status", "draft"), ("state", "zzz")]

/-! ### Helper lemmas about the Python-split model -/

theorem data_append (a b : String) : (a ++ b).data = a.data ++ b.data := rfl

theorem splitList_of_not_mem {sep : Char} {l : List Char} (h : sep ∉ l) :
    splitList sep l = [l] := by
  induction l with
  | nil => rfl
  | cons c cs ih =>
    simp only [List.mem_cons, not_or] at h
    have hne : ¬c = sep := fun hc => h.1 hc.symm
    simp only [splitList, if_neg hne, ih h.2]

theorem splitList_append {sep : Char} {l1 l2 : List Char} (h : sep ∉ l1) :
    splitList sep (l1 ++ sep :: l2) = l1 :: splitList sep l2 := by
  induction l1 with
  | nil => simp [splitList]
  | cons c cs ih =>
    simp only [List.mem_cons, not_or] at h
    have hne : ¬c = sep := fun hc => h.1 hc.symm
    simp only [List.cons_append, splitList, if_neg hne, List.append_eq, ih h.2]

/-- Parsing the field name `_fsmtransition-T` when `T` has no dash:
`split('-')[1]` recovers exactly `T`. -/
theorem pySplit_key (T : String) (h : '-' ∉ T.data) :
    (pySplit '-' ("_fsmtransition-" ++ T)).get? 1 = some T := by
  have h14 : '-' ∉ "_fsmtransition".data := by decide
  have hdash : "_fsmtransition-".data = "_fsmtransition".data ++ ['-'] := by decide
  have hdata : ("_fsmtransition-" ++ T).data =
      "_fsmtransition".data ++ '-' :: T.data := by
    rw [data_append, hdash, List.append_assoc]
    rfl
  unfold pySplit
  rw [hdata, splitList_append h14, splitList_of_not_mem h]
  rfl

/-- Parsing `_fsmtransition-a-b` when `a` has no dash: `split('-')[1]`
yields only `a`, not the full remainder `a-b`. -/
theorem pySplit_key_two (a b : String) (h : '-' ∉ a.data) :
    (pySplit '-' ("_fsmtransition-" ++ a ++ "-" ++ b)).get? 1 = some a := by
  have h14 : '-' ∉ "_fsmtransition".data := by decide
  have hdash : "_fsmtransition-".data = "_fsmtransition".data ++ ['-'] := by decide
  have hsep : "-".data = ['-'] := by decide
  have hdata : ("_fsmtransition-" ++ a ++ "-" ++ b).data =
      "_fsmtransition".data ++ '-' :: (a.data ++ '-' :: b.data) := by
    rw [data_append, data_append, data_append, hdash, hsep]
    simp [List.append_assoc]
  unfold pySplit
  rw [hdata, splitList_append h14, splitList_append h]
  rfl

/-! ### Claims -/

/-- C1: For every object and every transition name `T` that is the
`func_name` of an entry of the object's available-transitions list (such a
name is a Python identifier, hence contains no `-`) and whose attribute on
the object resolves to a callable, a submission whose first
`_fsmtransition`-prefixed field is `_fsmtransition-T` makes the dispatcher
invoke that callable with no arguments, call `obj.save()` unconditionally,
append exactly one audit entry with message
`Changed state from {old} to {new}` (old state read before the
invocation), and flash the success message
`{object} successfully set to {new_state}`. -/
theorem C1_success_path (m : Mixin) (apf : String → String → String)
    (req : Request) (spec : ObjSpec) (st : ObjState)
    (T tgt : String) (rest : List String) (f : TransFn) (st1 : ObjState)
    (original_state new_state : String)
    (hT : '-' ∉ T.data)
    (hKeys : transitionKeys req.postKeys = ("_fsmtransition-" ++ T) :: rest)
    (hAvail : (tgt, T) ∈ spec.available)
    (hGet : pygetattr spec st T = some (PyVal.func f))
    (hOld : lookupData st m.fsm_field = some original_state)
    (hRun : f st = Except.ok st1)
    (hNew : lookupData st1 "state" = some new_state) :
    response_change m apf req spec st =
      { outcome := Outcome.redirected (apf req.preservedFilters (m.getRedirectUrl req))
        finalData := st1
        saves := 1
        logEntries := [log_state_change spec req.userId original_state new_state]
        flashes := [(spec.objRepr ++ " successfully set to " ++ new_state, SUCCESS)]
        invoked := [T] } := by
  have havail : spec.available.any (fun tf => tf.2 == T) = true :=
    List.any_eq_true.mpr ⟨(tgt, T), hAvail, by simp⟩
  unfold response_change
  rw [hKeys]
  simp only [pySplit_key T hT, _fsm_get_transitions, hOld, hGet, havail, hRun, hNew,
    pytruthy, Bool.and_self, if_true]

theorem C1_success_path_witness :
    response_change mixin0 apf0 (req0 ["_fsmtransition-publish"]) spec0 stDraft =
      { outcome := Outcome.redirected "/admin/app/model/1/?q=a"
        finalData := [("state", "published")]
        saves := 1
        logEntries := [{ user_id := 7, content_type_id := 9, object_id := 1,
                         object_repr := "obj1", action_flag := 2,
                         change_message := "Changed state from draft to published" }]
        flashes := [("obj1 successfully set to published", 25)]
        invoked := ["publish"] } :=
  (C1_success_path mixin0 apf0 (req0 ["_fsmtransition-publish"]) spec0 stDraft
    "publish" "published" [] pubFn [("state", "published")] "draft" "published"
    (by decide) (by decide) (by decide) rfl rfl rfl rfl).trans (by decide)

/-- C2 counterexample: `publish-now` is not the method name of any entry of
the object's available-transitions list, yet submitting
`_fsmtransition-publish-now` mutates the state, saves, and flashes a
success message: the code resolves `split('-')[1] = publish`, which is
available and callable, and executes it. -/
theorem C2_counterexample :
    (∀ p ∈ spec0.available, p.2 ≠ "publish-now") ∧
    (response_change mixin0 apf0 (req0 ["_fsmtransition-publish-now"]) spec0 stDraft).saves = 1 ∧
    (response_change mixin0 apf0 (req0 ["_fsmtransition-publish-now"]) spec0 stDraft).finalData =
      [("state", "published")] ∧
    (response_change mixin0 apf0 (req0 ["_fsmtransition-publish-now"]) spec0 stDraft).flashes =
      [("obj1 successfully set to published", 25)] := by
  refine ⟨by decide, by decide, by decide, by decide⟩

/-- C2 (amended): for every name `N` containing no `-` such that no entry
of the object's available-transitions list has method name `N`, submitting
`_fsmtransition-N` performs no state mutation, makes no persistence call,
writes no audit entry, and flashes exactly
`Error! {object} failed to {N}`. -/
theorem C2_reject_unknown (m : Mixin) (apf : String → String → String)
    (req : Request) (spec : ObjSpec) (st : ObjState)
    (N original_state : String) (rest : List String)
    (hN : '-' ∉ N.data)
    (hKeys : transitionKeys req.postKeys = ("_fsmtransition-" ++ N) :: rest)
    (hNotAvail : ∀ p ∈ spec.available, p.2 ≠ N)
    (hOld : lookupData st m.fsm_field = some original_state) :
    response_change m apf req spec st =
      { outcome := Outcome.redirected (apf req.preservedFilters (m.getRedirectUrl req))
        finalData := st
        saves := 0
        logEntries := []
        flashes := [("Error! " ++ spec.objRepr ++ " failed to " ++ N, ERROR)]
        invoked := [] } := by
  have havail : spec.available.any (fun tf => tf.2 == N) = false := by
    rw [List.any_eq_false]
    intro p hp
    simpa using hNotAvail p hp
  unfold response_change
  rw [hKeys]
  simp only [pySplit_key N hN, _fsm_get_transitions, hOld, havail, Bool.false_and, if_false]
  rfl

theorem C2_reject_unknown_witness :
    response_change mixin0 apf0 (req0 ["_fsmtransition-archive"]) spec0 stDraft =
      { outcome := Outcome.redirected "/admin/app/model/1/?q=a"
        finalData := [("state", "draft")]
        saves := 0
        logEntries := []
        flashes := [("Error! obj1 failed to archive", 40)]
        invoked := [] } :=
  (C2_reject_unknown mixin0 apf0 (req0 ["_fsmtransition-archive"]) spec0 stDraft
    "archive" "draft" [] (by decide) (by decide) (by decide) rfl).trans (by decide)

/-- C3 counterexample: the submitted field `_fsmtransitions` is not
prefixed by `_fsmtransition-` (with the separator), yet the dispatcher
does not delegate to default save handling: the source tests
`startswith("_fsmtransition")` without the dash, accepts the field, and
the request then dies with an IndexError while parsing it. -/
theorem C3_counterexample :
    pyStartsWith "_fsmtransition-" "_fsmtransitions" = false ∧
    (response_change mixin0 apf0 (req0 ["_fsmtransitions"]) spec0 stDraft).outcome =
      Outcome.crash "IndexError: list index out of range" ∧
    (response_change mixin0 apf0 (req0 ["_fsmtransitions"]) spec0 stDraft).outcome ≠
      Outcome.delegated := by
  refine ⟨by decide, by decide, by decide⟩

/-- C3 (amended): for every submission whose field names contain no field
prefixed `_fsmtransition` (the prefix the code actually tests — without
the trailing separator), the dispatcher performs no transition logic at
all (no mutation, no save, no audit entry, no flash) and delegates to the
host's default post-edit handling. -/
theorem C3_delegates (m : Mixin) (apf : String → String → String)
    (req : Request) (spec : ObjSpec) (st : ObjState)
    (h : ∀ k ∈ req.postKeys, pyStartsWith "_fsmtransition" k = false) :
    response_change m apf req spec st =
      { outcome := Outcome.delegated
        finalData := st
        saves := 0
        logEntries := []
        flashes := []
        invoked := [] } := by
  have hkeys : transitionKeys req.postKeys = [] := by
    refine List.filter_eq_nil_iff.mpr ?_
    intro k hk
    simp [h k hk]
  unfold response_change
  rw [hkeys]

theorem C3_delegates_witness :
    response_change mixin0 apf0 (req0 ["csrfmiddlewaretoken", "_save"]) spec0 stDraft =
      { outcome := Outcome.delegated
        finalData := [("state", "draft")]
        saves := 0
        logEntries := []
        flashes := []
        invoked := [] } :=
  (C3_delegates mixin0 apf0 (req0 ["csrfmiddlewaretoken", "_save"]) spec0 stDraft
    (by decide)).trans (by decide)

/-- C4 counterexample: `publish` is the method name of an entry of the
available-transitions list, and the object's attribute `publish` resolves
to the non-callable string `yes` (an instance attribute shadowing the
class method).  The dispatcher does not take the reject path: the source
only tests truthiness (`if available and trans_func`), so it attempts the
call and dies with a TypeError — no error flash, no redirect. -/
theorem C4_counterexample :
    (("published", "publish") ∈ specAvailOnly.available) ∧
    pygetattr specAvailOnly stShadow "publish" = some (PyVal.str "yes") ∧
    (response_change mixin0 apf0 (req0 ["_fsmtransition-publish"]) specAvailOnly stShadow).outcome =
      Outcome.crash "TypeError: not callable" ∧
    (response_change mixin0 apf0 (req0 ["_fsmtransition-publish"]) specAvailOnly stShadow).flashes =
      [] := by
  refine ⟨by decide, rfl, by decide, by decide⟩

/-- C4 (amended): for every transition name `T` (no `-`) that appears in
the available-transitions list but whose attribute on the object is
missing or resolves to a falsy value (such as `None` or an empty string),
the dispatcher takes the reject path: error flash, no mutation, no
persistence, no audit entry.  (A truthy non-callable attribute instead
leads to an attempted call that raises an uncaught TypeError, because the
source checks truthiness, not callability.) -/
theorem C4_falsy_reject (m : Mixin) (apf : String → String → String)
    (req : Request) (spec : ObjSpec) (st : ObjState)
    (T tgt original_state : String) (rest : List String)
    (hT : '-' ∉ T.data)
    (hKeys : transitionKeys req.postKeys = ("_fsmtransition-" ++ T) :: rest)
    (hAvail : (tgt, T) ∈ spec.available)
    (hFalsy : pytruthy (pygetattr spec st T) = false)
    (hOld : lookupData st m.fsm_field = some original_state) :
    response_change m apf req spec st =
      { outcome := Outcome.redirected (apf req.preservedFilters (m.getRedirectUrl req))
        finalData := st
        saves := 0
        logEntries := []
        flashes := [("Error! " ++ spec.objRepr ++ " failed to " ++ T, ERROR)]
        invoked := [] } := by
  unfold response_change
  rw [hKeys]
  simp only [pySplit_key T hT, _fsm_get_transitions, hOld, hFalsy, Bool.and_false, if_false]
  rfl

theorem C4_falsy_reject_witness :
    response_change mixin0 apf0 (req0 ["_fsmtransition-publish"]) specAvailOnly stDraft =
      { outcome := Outcome.redirected "/admin/app/model/1/?q=a"
        finalData := [("state", "draft")]
        saves := 0
        logEntries := []
        flashes := [("Error! obj4 failed to publish", 40)]
        invoked := [] } :=
  (C4_falsy_reject mixin0 apf0 (req0 ["_fsmtransition-publish"]) specAvailOnly stDraft
    "publish" "published" "draft" [] (by decide) (by decide) (by decide) rfl rfl).trans
    (by decide)

/-- C5 counterexample: the transition `publish-now` is available and
callable on the object, and the submitted field is
`_fsmtransition-publish-now`, whose remainder after the first separator is
`publish-now`.  The dispatcher nevertheless resolves `split('-')[1] =
publish` (the error flash names `publish`), invokes nothing and saves
nothing — so the resolved name is not the entire remainder after the
first separator. -/
theorem C5_counterexample :
    (("published", "publish-now") ∈ specNow.available) ∧
    pygetattr specNow stDraft "publish-now" = some (PyVal.func pubFn) ∧
    (response_change mixin0 apf0 (req0 ["_fsmtransition-publish-now"]) specNow stDraft).invoked =
      [] ∧
    (response_change mixin0 apf0 (req0 ["_fsmtransition-publish-now"]) specNow stDraft).flashes =
      [("Error! obj3 failed to publish", 40)] ∧
    (response_change mixin0 apf0 (req0 ["_fsmtransition-publish-now"]) specNow stDraft).saves =
      0 := by
  refine ⟨by decide, rfl, by decide, by decide, by decide⟩

/-- C5 (amended): for every submitted field name of the shape
`<prefix>-<a>-<b>` the dispatcher resolves the transition name `a`, the
segment between the first separator and the next one (`split('-')[1]`),
ignoring the rest of the remainder; e.g. `_fsmtransition-publish-now`
resolves `publish`.  (Observed here through the reject-path flash, which
names the resolved transition.) -/
theorem C5_second_segment (m : Mixin) (apf : String → String → String)
    (req : Request) (spec : ObjSpec) (st : ObjState)
    (a b original_state : String) (rest : List String)
    (ha : '-' ∉ a.data)
    (hKeys : transitionKeys req.postKeys = ("_fsmtransition-" ++ a ++ "-" ++ b) :: rest)
    (hNoAvail : spec.available = [])
    (hOld : lookupData st m.fsm_field = some original_state) :
    response_change m apf req spec st =
      { outcome := Outcome.redirected (apf req.preservedFilters (m.getRedirectUrl req))
        finalData := st
        saves := 0
        logEntries := []
        flashes := [("Error! " ++ spec.objRepr ++ " failed to " ++ a, ERROR)]
        invoked := [] } := by
  unfold response_change
  rw [hKeys]
  simp only [pySplit_key_two a b ha, _fsm_get_transitions, hOld, hNoAvail, List.any_nil,
    Bool.false_and, if_false]
  rfl

theorem C5_second_segment_witness :
    response_change mixin0 apf0 (req0 ["_fsmtransition-publish-now"]) specEmpty stDraft =
      { outcome := Outcome.redirected "/admin/app/model/1/?q=a"
        finalData := [("state", "draft")]
        saves := 0
        logEntries := []
        flashes := [("Error! obj2 failed to publish", 40)]
        invoked := [] } :=
  (C5_second_segment mixin0 apf0 (req0 ["_fsmtransition-publish-now"]) specEmpty stDraft
    "publish" "now" "draft" [] (by decide) (by decide) rfl rfl).trans (by decide)

/-- C6 (code-bug evaluation): the mixin is configured with
`fsm_field = status`; the object's `status` moves from `draft` to
`published` and its unrelated attribute `state` holds `zzz`.  Because the
source reads `new_state = obj.state` — the literal attribute `state`,
not `getattr(obj, self.fsm_field)` as it does for the old value — the
audit row says `Changed state from draft to zzz` and the flash says
`successfully set to zzz`, not `published` as the claim requires. -/
theorem C6_code_bug_eval :
    response_change mixinStatus apf0 (req0 ["_fsmtransition-publish"]) specStatus stStatusDraft =
      { outcome := Outcome.redirected "/admin/app/model/1/?q=a"
        finalData := [("status", "published"), ("state", "zzz")]
        saves := 1
        logEntries := [{ user_id := 7, content_type_id := 9, object_id := 6,
                         object_repr := "obj6", action_flag := 2,
                         change_message := "Changed state from draft to zzz" }]
        flashes := [("obj6 successfully set to zzz", 25)]
        invoked := ["publish"] } := by
  decide

/-- Every branch of the dispatcher invokes at most one attribute as a
transition callable. -/
theorem invoked_length_le_one (m : Mixin) (apf : String → String → String)
    (req : Request) (spec : ObjSpec) (st : ObjState) :
    (response_change m apf req spec st).invoked.length ≤ 1 := by
  unfold response_change
  dsimp only
  repeat' split
  all_goals simp

/-- C7: for every submission containing a transition-button field, on both
the path that succeeds and the path that rejects (the two paths that flash
a message — an uncaught exception produces neither flash nor response),
the dispatcher returns an HTTP redirect whose target is the hook-computed
url — the `get_redirect_url` hook defaulting to the current request path —
with the preserved-filters parameters of the incoming request merged into
it by `add_preserved_filters` (modelled by the opaque `apf`). -/
theorem C7_redirect (m : Mixin) (apf : String → String → String)
    (req : Request) (spec : ObjSpec) (st : ObjState)
    (hKeys : transitionKeys req.postKeys ≠ []) :
    ((response_change m apf req spec st).flashes ≠ [] →
      (response_change m apf req spec st).outcome =
        Outcome.redirected (apf req.preservedFilters (m.getRedirectUrl req))) ∧
    get_redirect_url req = req.path := by
  refine ⟨?_, rfl⟩
  unfold response_change
  dsimp only
  repeat' split
  all_goals intro hf
  all_goals first
    | rfl
    | simp at hf

theorem C7_redirect_witness :
    (response_change mixin0 apf0 (req0 ["_fsmtransition-archive"]) spec0 stDraft).outcome =
      Outcome.redirected "/admin/app/model/1/?q=a" :=
  ((C7_redirect mixin0 apf0 (req0 ["_fsmtransition-archive"]) spec0 stDraft
    (by decide)).1 (by decide)).trans (by decide)

/-- C8: when the resolved, available, callable transition raises on
invocation, the dispatcher catches nothing: the exception propagates
(`Outcome.crash`), and no save, no audit entry, no flash message and no
redirect are produced by this component. -/
theorem C8_exception_propagates (m : Mixin) (apf : String → String → String)
    (req : Request) (spec : ObjSpec) (st : ObjState)
    (T tgt e original_state : String) (rest : List String) (f : TransFn)
    (hT : '-' ∉ T.data)
    (hKeys : transitionKeys req.postKeys = ("_fsmtransition-" ++ T) :: rest)
    (hAvail : (tgt, T) ∈ spec.available)
    (hGet : pygetattr spec st T = some (PyVal.func f))
    (hOld : lookupData st m.fsm_field = some original_state)
    (hRaise : f st = Except.error e) :
    response_change m apf req spec st =
      { outcome := Outcome.crash e
        finalData := st
        saves := 0
        logEntries := []
        flashes := []
        invoked := [T] } := by
  have havail : spec.available.any (fun tf => tf.2 == T) = true :=
    List.any_eq_true.mpr ⟨(tgt, T), hAvail, by simp⟩
  unfold response_change
  rw [hKeys]
  simp only [pySplit_key T hT, _fsm_get_transitions, hOld, hGet, havail, hRaise,
    pytruthy, Bool.and_self, if_true]

theorem C8_exception_propagates_witness :
    response_change mixin0 apf0 (req0 ["_fsmtransition-publish"]) specFail stDraft =
      { outcome := Outcome.crash "ValueError: boom"
        finalData := [("state", "draft")]
        saves := 0
        logEntries := []
        flashes := []
        invoked := ["publish"] } :=
  (C8_exception_propagates mixin0 apf0 (req0 ["_fsmtransition-publish"]) specFail stDraft
    "publish" "published" "ValueError: boom" "draft" [] failFn
    (by decide) (by decide) (by decide) rfl rfl rfl).trans (by decide)

/-- C9: for every submission whose field names contain one or more
transition-button fields, the dispatcher behaves exactly as if only the
first such field (in submitted order) had been sent — the other matching
fields are ignored — and at most one transition is performed.  (The
`get_redirect_url` hook is assumed not to distinguish the two requests,
as the default hook, which reads only the path, does not.) -/
theorem C9_first_key_wins (m : Mixin) (apf : String → String → String)
    (req : Request) (spec : ObjSpec) (st : ObjState)
    (k0 : String) (rest : List String)
    (hKeys : transitionKeys req.postKeys = k0 :: rest)
    (hHook : m.getRedirectUrl req = m.getRedirectUrl { req with postKeys := [k0] }) :
    response_change m apf req spec st =
      response_change m apf { req with postKeys := [k0] } spec st ∧
    (response_change m apf req spec st).invoked.length ≤ 1 := by
  refine ⟨?_, invoked_length_le_one m apf req spec st⟩
  have hp : pyStartsWith "_fsmtransition" k0 = true :=
    List.of_mem_filter (p := fun k => pyStartsWith "_fsmtransition" k)
      (hKeys ▸ List.mem_cons_self k0 rest)
  have hone : transitionKeys [k0] = [k0] := by
    simp [transitionKeys, List.filter_cons_of_pos, hp]
  unfold response_change
  rw [hKeys, hHook]
  show _ = (match transitionKeys [k0] with | [] => _ | k0 :: _ => _)
  rw [hone]

theorem C9_first_key_wins_witness :
    response_change mixin0 apf0 (req0 ["_fsmtransition-archive", "_fsmtransition-publish"])
        spec0 stDraft =
      response_change mixin0 apf0 (req0 ["_fsmtransition-archive"]) spec0 stDraft ∧
    (response_change mixin0 apf0 (req0 ["_fsmtransition-archive", "_fsmtransition-publish"])
        spec0 stDraft).invoked.length ≤ 1 := by
  have h := C9_first_key_wins mixin0 apf0
    (req0 ["_fsmtransition-archive", "_fsmtransition-publish"]) spec0 stDraft
    "_fsmtransition-archive" ["_fsmtransition-publish"] (by decide) rfl
  exact ⟨h.1.trans (by decide), h.2⟩

/-- C10: for every submission whose first `_fsmtransition`-prefixed field
contains no `-` at all (for example a field named exactly
`_fsmtransition` or `_fsmtransitions`), the dispatcher neither delegates
to default save handling nor reaches the reject path: the prefix test
accepts the field, and `split('-')[1]` then raises an IndexError, so the
request fails before any availability check, mutation, persistence call,
audit write or flash. -/
theorem C10_dashless_crash (m : Mixin) (apf : String → String → String)
    (req : Request) (spec : ObjSpec) (st : ObjState)
    (k : String) (rest : List String)
    (hKeys : transitionKeys req.postKeys = k :: rest)
    (hND : '-' ∉ k.data) :
    response_change m apf req spec st =
      { outcome := Outcome.crash "IndexError: list index out of range"
        finalData := st
        saves := 0
        logEntries := []
        flashes := []
        invoked := [] } := by
  have hparse : (pySplit '-' k).get? 1 = none := by
    unfold pySplit
    rw [splitList_of_not_mem hND]
    rfl
  unfold response_change
  rw [hKeys]
  simp only [hparse]

theorem C10_dashless_crash_witness :
    response_change mixin0 apf0 (req0 ["_fsmtransition"]) spec0 stDraft =
      { outcome := Outcome.crash "IndexError: list index out of range"
        finalData := [("state", "draft")]
        saves := 0
        logEntries := []
        flashes := []
        invoked := [] } :=
  (C10_dashless_crash mixin0 apf0 (req0 ["_fsmtransition"]) spec0 stDraft
    "_fsmtransition" [] (by decide) (by decide)).trans (by decide)

end FSMAdmin
